import Mathlib

/-!
Verification of the AI-Style-Image-Generator application.

The development shallowly embeds the three code units the claims are about:

* the `generate-image` edge function (the Generation Orchestrator), from
  `supabase/functions/generate-image/index.ts` (shipped alongside the
  migration file);
* the client submission form handlers `handleGenerate` and
  `handleImageUpload` from `src/components/GenerationForm.tsx`;
* the auth form handler `handleSubmit` and its zod schemas from
  `src/pages/Auth.tsx`.

External services (the AI gateway, the Supabase database and auth API,
the supabase-js client library) are modelled as environment inputs: the
outcome of each external call is a parameter of the embedded function,
and the `generations` table is an explicit list of records threaded
through the handlers.  Counters of external-model calls and store writes
are part of each handler's result so that frame/effect claims can be
stated.
-/

namespace ImageGen

/-- Substring test on lists of characters: `subOfList sub l` is true iff
`sub` occurs contiguously inside `l`.  Embeds JavaScript
`String.prototype.includes`. -/
def subOfList (sub : List Char) : List Char → Bool
  | [] => decide (sub = [])
  | c :: cs => sub.isPrefixOf (c :: cs) || subOfList sub cs

/-- JavaScript `s.includes(sub)`. -/
def strIncludes (s sub : String) : Bool :=
  subOfList sub.data s.data

/-- JavaScript `String.prototype.trim`: drop leading and trailing
whitespace. -/
def jsTrim (s : String) : String :=
  ⟨((s.data.dropWhile Char.isWhitespace).reverse.dropWhile Char.isWhitespace).reverse⟩

/-- JavaScript falsiness of an optional string field: `undefined`/absent
and the empty string are falsy. -/
def falsy : Option String → Bool
  | none => true
  | some s => s == ""

/-- A row of the `generations` table (migration file: columns id,
user_id, prompt, style, image_url, status; created_at is not relevant to
any claim). -/
structure Generation where
  id : String
  user_id : String
  prompt : String
  style : String
  image_url : Option String
  status : String
deriving DecidableEq, Repr

/-- The Request Store: the `generations` relation. -/
abbrev Store := List Generation

/-- Lookup of the row with a given id (`.eq("id", id)` on a primary
key). -/
def findRec (id : String) (s : Store) : Option Generation :=
  s.find? (fun g => g.id == id)

/-- A SQL `UPDATE ... WHERE id = gid`: apply `f` to every row whose id
matches. -/
def storeUpdate (gid : String) (f : Generation → Generation) (s : Store) : Store :=
  s.map (fun g => if g.id == gid then f g else g)

/-- Parsed JSON body of a `generate-image` request; each field may be
absent. -/
structure ReqBody where
  generationId : Option String
  prompt : Option String
  style : Option String
  uploadedImage : Option String
deriving DecidableEq, Repr

/-- Outcome of the `fetch` to the AI gateway: either the network call
throws, or an HTTP response arrives with a status code and with the
optional-chained image extraction
`data.choices?.[0]?.message?.images?.[0]?.image_url?.url`. -/
inductive FetchResult where
  | netError (msg : String)
  | http (status : Nat) (image : Option String)
deriving DecidableEq, Repr

/-- Environment of one Orchestrator invocation: the `LOVABLE_API_KEY`
environment variable, the outcome of the AI-gateway fetch, the error
(if any) reported by the supabase `update` call, and the engine's
template-literal rendering of properties inherited from
`Object.prototype`. -/
structure OrchEnv where
  apiKey : Option String
  fetchResult : FetchResult
  updateError : Option String
  protoRender : String → String

/-- Body of the HTTP response the Orchestrator returns. -/
inductive RespBody where
  | empty
  | ok (imageUrl : String)
  | err (msg : String)
deriving DecidableEq, Repr

/-- An HTTP response of the Orchestrator. -/
structure HttpResponse where
  status : Nat
  body : RespBody
deriving DecidableEq, Repr

/-- Result of one Orchestrator invocation: the HTTP response, the store
after the invocation, how many times the external model was called, how
many store writes took effect, and the enhanced prompt sent to the model
(if the model was called). -/
structure OrchResult where
  resp : HttpResponse
  store : Store
  modelCalls : Nat
  storeWrites : Nat
  sentPrompt : Option String
deriving Repr

/-- The style-modifier table `stylePrompts` of the edge function. -/
def stylePrompts : List (String × String) :=
  [("cinematic", "cinematic lighting, dramatic composition, film grain, professional cinematography"),
   ("anime", "anime art style, vibrant colors, detailed illustration, manga inspired"),
   ("realistic", "photorealistic, high detail, professional photography, natural lighting"),
   ("fantasy", "fantasy art, magical atmosphere, epic composition, vibrant colors"),
   ("cyberpunk", "cyberpunk style, neon lights, futuristic cityscape, high tech aesthetic"),
   ("watercolor", "watercolor painting, soft colors, artistic brushstrokes, flowing"),
   ("oil-painting", "oil painting style, rich textures, classical art, detailed brushwork"),
   ("3d-render", "3D rendered, volumetric lighting, high quality render, photorealistic materials")]

/-- The property names every plain object literal inherits from
`Object.prototype`. -/
def objectProtoKeys : List String :=
  ["constructor", "hasOwnProperty", "isPrototypeOf", "propertyIsEnumerable",
   "toLocaleString", "toString", "valueOf", "__defineGetter__", "__defineSetter__",
   "__lookupGetter__", "__lookupSetter__", "__proto__"]

/-- The JavaScript property read `stylePrompts[style]`: an own property
of the object literal when present, otherwise a property inherited from
`Object.prototype` (all of which are truthy values, so the `||` fallback
never fires on them), otherwise `undefined`.  `protoRender style` is the
string an inherited property interpolates to inside a template literal;
that rendering is engine behavior outside this repository, so it is a
parameter. -/
def stylePromptsGet (protoRender : String → String) (style : String) : Option String :=
  match stylePrompts.lookup style with
  | some v => some v
  | none =>
    if objectProtoKeys.contains style then some (protoRender style) else none

/-- The enhanced prompt:
`` `${prompt}. Style: ${stylePrompts[style] || stylePrompts.cinematic}. Ultra high resolution, masterpiece quality.` ``. -/
def enhancedPrompt (protoRender : String → String) (prompt style : String) : String :=
  prompt ++ ". Style: " ++
    ((stylePromptsGet protoRender style).getD
      "cinematic lighting, dramatic composition, film grain, professional cinematography") ++
    ". Ultra high resolution, masterpiece quality."

/-- JavaScript `response.ok`: status in the range [200, 300). -/
def respOk (status : Nat) : Bool :=
  200 ≤ status && status < 300

/-- The `serve` handler of the `generate-image` edge function.  `method`
is the HTTP method of the request, `body` its parsed JSON body, `env`
the outcome of the external calls, `s` the current store. -/
def generateImage (method : String) (body : ReqBody) (env : OrchEnv) (s : Store) : OrchResult :=
  if method == "OPTIONS" then
    { resp := { status := 200, body := .empty },
      store := s, modelCalls := 0, storeWrites := 0, sentPrompt := none }
  else if falsy body.generationId || falsy body.prompt || falsy body.style then
    { resp := { status := 500, body := .err "Missing required parameters" },
      store := s, modelCalls := 0, storeWrites := 0, sentPrompt := none }
  else if falsy env.apiKey then
    { resp := { status := 500, body := .err "LOVABLE_API_KEY is not configured" },
      store := s, modelCalls := 0, storeWrites := 0, sentPrompt := none }
  else
    let prompt := body.prompt.getD ""
    let style := body.style.getD ""
    let sent := some (enhancedPrompt env.protoRender prompt style)
    match env.fetchResult with
    | .netError msg =>
      { resp := { status := 500, body := .err msg },
        store := s, modelCalls := 1, storeWrites := 0, sentPrompt := sent }
    | .http status image =>
      if !respOk status then
        if status == 429 then
          { resp := { status := 429, body := .err "Rate limit exceeded. Please try again later." },
            store := s, modelCalls := 1, storeWrites := 0, sentPrompt := sent }
        else if status == 402 then
          { resp := { status := 402, body := .err "AI credits depleted. Please add more credits." },
            store := s, modelCalls := 1, storeWrites := 0, sentPrompt := sent }
        else
          { resp := { status := 500, body := .err ("AI Gateway error: " ++ toString status) },
            store := s, modelCalls := 1, storeWrites := 0, sentPrompt := sent }
      else
        match image with
        | none =>
          { resp := { status := 500, body := .err "No image generated" },
            store := s, modelCalls := 1, storeWrites := 0, sentPrompt := sent }
        | some imageBase64 =>
          match env.updateError with
          | some e =>
            { resp := { status := 500, body := .err e },
              store := s, modelCalls := 1, storeWrites := 0, sentPrompt := sent }
          | none =>
            { resp := { status := 200, body := .ok imageBase64 },
              store := storeUpdate (body.generationId.getD "")
                (fun g => { g with image_url := some imageBase64, status := "completed" }) s,
              modelCalls := 1, storeWrites := 1, sentPrompt := sent }

/-- Transport outcome of a `supabase.functions.invoke` call: the
request was delivered and the edge function's response came back; the
request was lost before the edge function ran (it never executed, the
client sees an error); or its response was lost after the edge function
ran (its side effects happened, yet the client still sees an error). -/
inductive InvokeTransport where
  | delivered
  | lostBeforeRun
  | lostAfterRun
deriving DecidableEq, Repr

/-- Environment of one client submission (`handleGenerate` in
`GenerationForm.tsx`): the current user returned by
`supabase.auth.getUser()`, the error (if any) of the `insert` call, the
id the database assigns to the inserted row, the Orchestrator
environment behind `supabase.functions.invoke`, the transport outcome
of that invocation, and the message supabase-js attaches to the
invocation error. -/
structure ClientEnv where
  user : Option String
  insertError : Option String
  newId : String
  orchEnv : OrchEnv
  transport : InvokeTransport
  invokeErrMsg : String

/-- Result of one client submission: the successive store states
(initial state, then one entry per store mutation), the toasts shown to
the user in order, how many times `supabase.auth.getUser` was called,
how many Orchestrator invocations were made, and whether the prompt was
cleared and the gallery refresh signalled (`onGenerate`). -/
structure ClientResult where
  trace : List Store
  toasts : List String
  userFetches : Nat
  invokes : Nat
  promptCleared : Bool
  refreshSignaled : Bool
deriving Repr

/-- The row inserted by the client:
`insert({user_id, prompt: prompt.trim(), style, status: "pending"})`;
`image_url` takes the column default `NULL`. -/
def insertedRow (uid promptText style : String) (env : ClientEnv) : Generation :=
  { id := env.newId, user_id := uid, prompt := jsTrim promptText, style := style,
    image_url := none, status := "pending" }

/-- The Orchestrator invocation the client makes
(`supabase.functions.invoke("generate-image", {body: {generationId, prompt: prompt.trim(), style, uploadedImage: uploadedImage || undefined}})`),
run against the store that already holds the freshly inserted row. -/
def clientOrchCall (promptText style : String) (uploadedImage : Option String)
    (env : ClientEnv) (s0 : Store) : OrchResult :=
  generateImage "POST"
    { generationId := some env.newId, prompt := some (jsTrim promptText), style := some style,
      uploadedImage := if falsy uploadedImage then none else uploadedImage }
    env.orchEnv
    (s0 ++ [insertedRow (env.user.getD "") promptText style env])

/-- The `handleGenerate` submission handler of `GenerationForm.tsx`. -/
def handleGenerate (promptText style : String) (uploadedImage : Option String)
    (env : ClientEnv) (s0 : Store) : ClientResult :=
  if jsTrim promptText == "" then
    { trace := [s0], toasts := ["Please enter a prompt"],
      userFetches := 0, invokes := 0, promptCleared := false, refreshSignaled := false }
  else
    match env.user with
    | none =>
      { trace := [s0], toasts := ["Please sign in to generate images"],
        userFetches := 1, invokes := 0, promptCleared := false, refreshSignaled := false }
    | some uid =>
      match env.insertError with
      | some _ =>
        { trace := [s0], toasts := ["An error occurred. Please try again."],
          userFetches := 1, invokes := 0, promptCleared := false, refreshSignaled := false }
      | none =>
        let s1 := s0 ++ [insertedRow uid promptText style env]
        let toastMsg :=
          if strIncludes env.invokeErrMsg "429" then
            "Rate limit exceeded. Please try again in a moment."
          else if strIncludes env.invokeErrMsg "402" then
            "AI credits depleted. Please add more credits to continue."
          else
            "Failed to generate image. Please try again."
        match env.transport with
        | .lostBeforeRun =>
          let s3 := storeUpdate env.newId (fun g => { g with status := "failed" }) s1
          { trace := [s0, s1, s3], toasts := [toastMsg],
            userFetches := 1, invokes := 1, promptCleared := false, refreshSignaled := false }
        | .delivered =>
          let orch := clientOrchCall promptText style uploadedImage env s0
          let s2 := orch.store
          if orch.resp.status == 200 then
            { trace := [s0, s1, s2], toasts := ["Image generated successfully!"],
              userFetches := 1, invokes := 1, promptCleared := true, refreshSignaled := true }
          else
            let s3 := storeUpdate env.newId (fun g => { g with status := "failed" }) s2
            { trace := [s0, s1, s2, s3], toasts := [toastMsg],
              userFetches := 1, invokes := 1, promptCleared := false, refreshSignaled := false }
        | .lostAfterRun =>
          let orch := clientOrchCall promptText style uploadedImage env s0
          let s3 := storeUpdate env.newId (fun g => { g with status := "failed" }) orch.store
          { trace := [s0, s1, orch.store, s3], toasts := [toastMsg],
            userFetches := 1, invokes := 1, promptCleared := false, refreshSignaled := false }

/-- A file selected in the upload input: its MIME type, size in bytes,
name, and the data URI the `FileReader` produces for it. -/
structure UploadFile where
  type : String
  size : Nat
  name : String
  dataUrl : String
deriving DecidableEq, Repr

/-- The component state touched by `handleImageUpload`. -/
structure UploadState where
  uploadedImage : Option String
  uploadedFileName : Option String
deriving DecidableEq, Repr

/-- Result of one run of `handleImageUpload`: the new component state,
the toasts shown, and how many network calls were made (the handler
performs none: it only reads the file locally). -/
structure UploadResult where
  state : UploadState
  toasts : List String
  networkCalls : Nat
deriving DecidableEq, Repr

/-- The accepted MIME types of `handleImageUpload`. -/
def validTypes : List String :=
  ["image/jpeg", "image/jpg", "image/png", "image/webp"]

/-- The `handleImageUpload` handler of `GenerationForm.tsx`. -/
def handleImageUpload (file : Option UploadFile) (st : UploadState) : UploadResult :=
  match file with
  | none => { state := st, toasts := [], networkCalls := 0 }
  | some f =>
    if !validTypes.contains f.type then
      { state := st,
        toasts := ["Invalid file type. Please upload a JPG, PNG, or WEBP image."],
        networkCalls := 0 }
    else if f.size > 10 * 1024 * 1024 then
      { state := st, toasts := ["File size must be less than 10MB."], networkCalls := 0 }
    else
      { state := { uploadedImage := some f.dataUrl, uploadedFileName := some f.name },
        toasts := ["Image uploaded successfully!"], networkCalls := 0 }

/-- Environment of one auth form submission: the error (if any) returned
by `supabase.auth.signInWithPassword`, and by `supabase.auth.signUp`. -/
structure AuthEnv where
  signInError : Option String
  signUpError : Option String
deriving Repr

/-- Result of one run of the auth `handleSubmit`: the toasts shown to
the user, and how many sign-in and sign-up API calls were made. -/
structure AuthResult where
  toasts : List String
  signInCalls : Nat
  signUpCalls : Nat
deriving DecidableEq, Repr

/-- JavaScript `String.prototype.length`, the measure zod's `.min` and
`.max` checks use: the number of UTF-16 code units, so a codepoint
outside the basic multilingual plane counts as 2. -/
def jsLength (s : String) : Nat :=
  (s.data.map (fun c => if 65536 ≤ c.toNat then 2 else 1)).sum

/-- Issues raised by `emailSchema = z.string().email("Invalid email address").max(255)`
when parsing `s`, in the order zod collects them.  Zod's email
well-formedness test lives in the zod library, outside this repository,
so it is kept as a parameter `fmt`. -/
def emailIssues (fmt : String → Bool) (s : String) : List String :=
  (if fmt s then [] else ["Invalid email address"]) ++
  (if jsLength s > 255 then ["String must contain at most 255 character(s)"] else [])

/-- Issues raised by
`passwordSchema = z.string().min(6, "Password must be at least 6 characters").max(100)`. -/
def passwordIssues (s : String) : List String :=
  (if jsLength s < 6 then ["Password must be at least 6 characters"] else []) ++
  (if jsLength s > 100 then ["String must contain at most 100 character(s)"] else [])

/-- Issues raised by
`nameSchema = z.string().min(2, "Name must be at least 2 characters").max(100)`. -/
def nameIssues (s : String) : List String :=
  (if jsLength s < 2 then ["Name must be at least 2 characters"] else []) ++
  (if jsLength s > 100 then ["String must contain at most 100 character(s)"] else [])

/-- The `handleSubmit` handler of `Auth.tsx`.  The three zod `parse`
calls run in sequence; the first schema that fails throws a `ZodError`
whose first issue's message is toasted, and no auth API call is made. -/
def handleSubmit (isLogin : Bool) (email password fullName : String)
    (fmt : String → Bool) (env : AuthEnv) : AuthResult :=
  match (emailIssues fmt email).head? with
  | some m => { toasts := [m], signInCalls := 0, signUpCalls := 0 }
  | none =>
    match (passwordIssues password).head? with
    | some m => { toasts := [m], signInCalls := 0, signUpCalls := 0 }
    | none =>
      if isLogin then
        match env.signInError with
        | some msg =>
          { toasts := [if strIncludes msg "Invalid login credentials" then
              "Invalid email or password" else msg],
            signInCalls := 1, signUpCalls := 0 }
        | none => { toasts := ["Welcome back!"], signInCalls := 1, signUpCalls := 0 }
      else
        match (nameIssues fullName).head? with
        | some m => { toasts := [m], signInCalls := 0, signUpCalls := 0 }
        | none =>
          match env.signUpError with
          | some msg =>
            { toasts := [if strIncludes msg "already registered" then
                "This email is already registered. Please sign in instead." else msg],
              signInCalls := 0, signUpCalls := 1 }
          | none =>
            { toasts := ["Account created! Welcome to Pixverse AI!"],
              signInCalls := 0, signUpCalls := 1 }

/-- One admissible step of a generation record's lifecycle, observed as
`Option Generation` (absent or present): unchanged, created `pending`
with null image, or a single transition from `pending` to `completed`
(image set) or `failed` (image still null). -/
def stepOkB (a b : Option Generation) : Bool :=
  decide (a = b) ||
    match a, b with
    | none, some g => g.status == "pending" && g.image_url == none
    | some g, some g' =>
      g.status == "pending" &&
        ((g'.status == "completed" && g'.image_url.isSome) ||
         (g'.status == "failed" && g'.image_url == none))
    | _, _ => false

/-- Every adjacent pair of a record history is an admissible lifecycle
step. -/
def chainOk : List (Option Generation) → Bool
  | [] => true
  | [_] => true
  | a :: b :: rest => stepOkB a b && chainOk (b :: rest)

/-- The last element of a non-empty list of store states. -/
def lastStore : List Store → Store
  | [] => []
  | [s] => s
  | _ :: rest => lastStore rest

/-- The final store state of a client submission. -/
def finalStore (r : ClientResult) : Store :=
  lastStore r.trace

theorem stepOkB_refl (a : Option Generation) : stepOkB a a = true := by
  simp [stepOkB]

theorem listMapId {α : Type} (F : α → α) :
    ∀ l : List α, (∀ x ∈ l, F x = x) → l.map F = l
  | [], _ => rfl
  | a :: t, h => by
    simp only [List.map_cons, h a (by simp),
      listMapId F t (fun x hx => h x (by simp [hx]))]

theorem storeUpdate_append (gid : String) (f : Generation → Generation)
    (s : Store) (r : Generation) :
    storeUpdate gid f (s ++ [r]) =
      storeUpdate gid f s ++ [if r.id == gid then f r else r] := by
  simp [storeUpdate]

theorem storeUpdate_absent (gid : String) (f : Generation → Generation)
    (s : Store) (h : findRec gid s = none) : storeUpdate gid f s = s := by
  unfold storeUpdate
  refine listMapId _ s (fun x hx => ?_)
  have hx' := List.find?_eq_none.mp h x hx
  simp only [Bool.not_eq_true] at hx'
  simp [hx']

theorem findRec_append_row (id : String) (s : Store) (r : Generation)
    (h : findRec id s = none) :
    findRec id (s ++ [r]) = if r.id == id then some r else none := by
  unfold findRec at *
  rw [List.find?_append, h]
  cases hr : (r.id == id) <;> simp [List.find?_cons, hr]

theorem findRec_append_other (id : String) (s : Store) (r : Generation)
    (h : (r.id == id) = false) :
    findRec id (s ++ [r]) = findRec id s := by
  unfold findRec
  rw [List.find?_append]
  have h1 : List.find? (fun g => g.id == id) [r] = none := by
    simp [List.find?_cons, h]
  rw [h1]
  cases List.find? (fun g => g.id == id) s <;> rfl

theorem storeUpdate_fresh_append (gid : String) (f : Generation → Generation)
    (s : Store) (r : Generation) (h : findRec gid s = none)
    (hr : (r.id == gid) = true) :
    storeUpdate gid f (s ++ [r]) = s ++ [f r] := by
  rw [storeUpdate_append, storeUpdate_absent gid f s h, hr]
  simp

theorem findRec_fresh_append_self (gid : String) (s : Store) (r : Generation)
    (h : findRec gid s = none) (hr : (r.id == gid) = true) :
    findRec gid (s ++ [r]) = some r := by
  rw [findRec_append_row gid s r h, hr]
  simp

theorem generateImage_store_cases (m : String) (b : ReqBody) (e : OrchEnv) (s : Store) :
    (generateImage m b e s).store = s ∨
      (∃ img, (generateImage m b e s).resp.status = 200 ∧
        (generateImage m b e s).resp.body = .ok img ∧
        (generateImage m b e s).store =
          storeUpdate (b.generationId.getD "")
            (fun g => { g with image_url := some img, status := "completed" }) s) := by
  unfold generateImage
  split
  · exact Or.inl rfl
  split
  · exact Or.inl rfl
  split
  · exact Or.inl rfl
  split
  · exact Or.inl rfl
  split
  · split
    · exact Or.inl rfl
    · split
      · exact Or.inl rfl
      · exact Or.inl rfl
  · split
    · exact Or.inl rfl
    · split
      · exact Or.inl rfl
      · exact Or.inr ⟨_, rfl, rfl, rfl⟩

/-- The eight enumerated style presets (spec §6). -/
def stylePresetNames : List String :=
  ["cinematic", "anime", "realistic", "fantasy", "cyberpunk", "watercolor",
   "oil-painting", "3d-render"]

/-- The modifier text the spec associates with each enumerated preset. -/
def specStyleModifier (s : String) : String :=
  match s with
  | "cinematic" => "cinematic lighting, dramatic composition, film grain, professional cinematography"
  | "anime" => "anime art style, vibrant colors, detailed illustration, manga inspired"
  | "realistic" => "photorealistic, high detail, professional photography, natural lighting"
  | "fantasy" => "fantasy art, magical atmosphere, epic composition, vibrant colors"
  | "cyberpunk" => "cyberpunk style, neon lights, futuristic cityscape, high tech aesthetic"
  | "watercolor" => "watercolor painting, soft colors, artistic brushstrokes, flowing"
  | "oil-painting" => "oil painting style, rich textures, classical art, detailed brushwork"
  | "3d-render" => "3D rendered, volumetric lighting, high quality render, photorealistic materials"
  | _ => ""

/-- C7 counterexample: at the style string `"__proto__"` the object
lookup `stylePrompts[style]` hits the truthy property inherited from
`Object.prototype` (a plain object, which a template literal renders as
`"[object Object]"`), so the enhanced prompt is not the claimed
cinematic fallback. -/
theorem enhancedPrompt_proto_counterexample :
    enhancedPrompt (fun _ => "[object Object]") "a red bicycle" "__proto__" ≠
      "a red bicycle" ++ ". Style: " ++
        "cinematic lighting, dramatic composition, film grain, professional cinematography" ++
        ". Ultra high resolution, masterpiece quality." := by
  decide

/-- C7 (amended): for every prompt `p` and every style string `s` that
is not a property name inherited from `Object.prototype`, the enhanced
prompt sent to the external model equals `p`, then `". Style: "`, then
the modifier text of `s` when `s` is one of the eight enumerated presets
and the cinematic preset's modifier text otherwise, then the fixed
quality suffix `". Ultra high resolution, masterpiece quality."`; for an
inherited property name the code interpolates the inherited property's
rendering instead of falling back to the cinematic modifier. -/
theorem enhancedPrompt_spec (proto : String → String) (p s : String)
    (hproto : s ∉ objectProtoKeys) :
    enhancedPrompt proto p s =
      p ++ ". Style: " ++
        (if stylePresetNames.contains s then specStyleModifier s
         else specStyleModifier "cinematic") ++
        ". Ultra high resolution, masterpiece quality." := by
  by_cases h1 : s = "cinematic"
  · subst h1; rfl
  by_cases h2 : s = "anime"
  · subst h2; rfl
  by_cases h3 : s = "realistic"
  · subst h3; rfl
  by_cases h4 : s = "fantasy"
  · subst h4; rfl
  by_cases h5 : s = "cyberpunk"
  · subst h5; rfl
  by_cases h6 : s = "watercolor"
  · subst h6; rfl
  by_cases h7 : s = "oil-painting"
  · subst h7; rfl
  by_cases h8 : s = "3d-render"
  · subst h8; rfl
  have b1 := beq_eq_false_iff_ne.mpr h1
  have b2 := beq_eq_false_iff_ne.mpr h2
  have b3 := beq_eq_false_iff_ne.mpr h3
  have b4 := beq_eq_false_iff_ne.mpr h4
  have b5 := beq_eq_false_iff_ne.mpr h5
  have b6 := beq_eq_false_iff_ne.mpr h6
  have b7 := beq_eq_false_iff_ne.mpr h7
  have b8 := beq_eq_false_iff_ne.mpr h8
  have hlook : stylePrompts.lookup s = none := by
    simp [stylePrompts, List.lookup, b1, b2, b3, b4, b5, b6, b7, b8]
  have hmem : s ∉ stylePresetNames := by
    simp only [stylePresetNames, List.mem_cons, List.not_mem_nil, or_false]
    push_neg
    exact ⟨h1, h2, h3, h4, h5, h6, h7, h8⟩
  simp [enhancedPrompt, stylePromptsGet, hlook, hmem, hproto, specStyleModifier]

theorem enhancedPrompt_spec_witness :
    enhancedPrompt (fun _ => "[object Object]") "a red bicycle" "graffiti" =
      "a red bicycle" ++ ". Style: " ++
        (if stylePresetNames.contains "graffiti" then specStyleModifier "graffiti"
         else specStyleModifier "cinematic") ++
        ". Ultra high resolution, masterpiece quality." :=
  enhancedPrompt_spec (fun _ => "[object Object]") "a red bicycle" "graffiti" (by decide)

/-- C10: an Orchestrator request whose body is missing `generationId`,
`prompt`, or `style` (absent or empty) yields
`{error: "Missing required parameters"}` with HTTP status 500, and
neither the external model nor the Request Store is touched. -/
theorem missing_params_response (body : ReqBody) (env : OrchEnv) (s : Store)
    (h : (falsy body.generationId || falsy body.prompt || falsy body.style) = true) :
    generateImage "POST" body env s =
      { resp := { status := 500, body := .err "Missing required parameters" },
        store := s, modelCalls := 0, storeWrites := 0, sentPrompt := none } := by
  unfold generateImage
  simp [h]

theorem missing_params_response_witness :
    generateImage "POST"
        { generationId := none, prompt := some "a red bicycle", style := some "anime",
          uploadedImage := none }
        { apiKey := some "key", fetchResult := .http 200 (some "data:image/png;base64,AAA"),
          updateError := none, protoRender := fun _ => "[object Object]" }
        [] =
      { resp := { status := 500, body := .err "Missing required parameters" },
        store := [], modelCalls := 0, storeWrites := 0, sentPrompt := none } :=
  missing_params_response
    { generationId := none, prompt := some "a red bicycle", style := some "anime",
      uploadedImage := none }
    { apiKey := some "key", fetchResult := .http 200 (some "data:image/png;base64,AAA"),
      updateError := none, protoRender := fun _ => "[object Object]" }
    [] (by decide)

/-- C3 counterexample: an invocation on which the upstream model call
returns HTTP 429 performs zero writes to the Request Store, not exactly
one. -/
theorem failure_path_zero_writes :
    (generateImage "POST"
        { generationId := some "gen-1", prompt := some "a red bicycle",
          style := some "anime", uploadedImage := none }
        { apiKey := some "key", fetchResult := .http 429 none, updateError := none, protoRender := fun _ => "[object Object]" }
        [{ id := "gen-1", user_id := "user-1", prompt := "a red bicycle",
           style := "anime", image_url := none, status := "pending" }]).storeWrites = 0 := by
  decide

/-- C3 (amended): every Orchestrator invocation performs at most one
write to the Request Store, and performs exactly one write precisely
when it returns the success response; on every failure path it performs
zero writes. -/
theorem at_most_one_store_write (m : String) (b : ReqBody) (e : OrchEnv) (s : Store) :
    (generateImage m b e s).storeWrites ≤ 1 ∧
      ((generateImage m b e s).storeWrites = 1 ↔
        ∃ u, (generateImage m b e s).resp.body = .ok u) := by
  unfold generateImage
  split
  · simp
  split
  · simp
  split
  · simp
  split
  · simp
  split
  · split
    · simp
    · split
      · simp
      · simp
  · split
    · simp
    · split
      · simp
      · simp

/-- C8: the upload handler rejects a selected file whose MIME type is
not one of jpeg/jpg/png/webp or whose size exceeds 10 MiB, showing an
error message, making no network call and leaving the uploaded-image
state unchanged; a file of an accepted type of size at most 10 MiB is
accepted. -/
theorem upload_validation (f : UploadFile) (st : UploadState) :
    ((f.type ∉ validTypes ∨ 10 * 1024 * 1024 < f.size) →
      (handleImageUpload (some f) st).state = st ∧
      (handleImageUpload (some f) st).networkCalls = 0 ∧
      ∃ m, (handleImageUpload (some f) st).toasts = [m]) ∧
      (f.type ∈ validTypes → f.size ≤ 10 * 1024 * 1024 →
        handleImageUpload (some f) st =
          { state := { uploadedImage := some f.dataUrl, uploadedFileName := some f.name },
            toasts := ["Image uploaded successfully!"], networkCalls := 0 }) := by
  constructor
  · rintro (h | h)
    · simp [handleImageUpload, h]
    · by_cases ht : f.type ∈ validTypes
      · simp [handleImageUpload, ht, h]
      · simp [handleImageUpload, ht]
  · intro ht hs
    simp [handleImageUpload, ht, Nat.not_lt.mpr hs]

theorem upload_validation_witness :
    (handleImageUpload
        (some { type := "image/gif", size := 5, name := "a.gif", dataUrl := "data:image/gif;base64,AA" })
        { uploadedImage := none, uploadedFileName := none }).state =
      { uploadedImage := none, uploadedFileName := none } ∧
    (handleImageUpload
        (some { type := "image/gif", size := 5, name := "a.gif", dataUrl := "data:image/gif;base64,AA" })
        { uploadedImage := none, uploadedFileName := none }).networkCalls = 0 ∧
    ∃ m, (handleImageUpload
        (some { type := "image/gif", size := 5, name := "a.gif", dataUrl := "data:image/gif;base64,AA" })
        { uploadedImage := none, uploadedFileName := none }).toasts = [m] :=
  (upload_validation
    { type := "image/gif", size := 5, name := "a.gif", dataUrl := "data:image/gif;base64,AA" }
    { uploadedImage := none, uploadedFileName := none }).1 (Or.inl (by decide))

/-- A failing outcome of the external model call: the network call
threw, the HTTP status is not a success status, or the nominally
successful response carries no image. -/
def upstreamFail : FetchResult → Bool
  | .netError _ => true
  | .http status image => !respOk status || image.isNone

/-- The HTTP status the claim assigns to each failing outcome: 429 when
the upstream status is 429, 402 when it is 402, 500 otherwise. -/
def expectedFailStatus : FetchResult → Nat
  | .netError _ => 500
  | .http status _ => if status = 429 then 429 else if status = 402 then 402 else 500

/-- C1: when the external model call returns a success status and the
response contains an image (and the record update is accepted by the
store), the Orchestrator updates exactly the rows with the given
generationId — status `completed`, image payload the extracted data URI
— and returns the success response `{success: true, imageUrl}`. -/
theorem orchestrator_success_updates_record (body : ReqBody) (env : OrchEnv) (s : Store)
    (gid imageBase64 : String) (st : Nat)
    (hgid : body.generationId = some gid) (hne : gid ≠ "")
    (hp : falsy body.prompt = false) (hsy : falsy body.style = false)
    (hk : falsy env.apiKey = false)
    (hf : env.fetchResult = .http st (some imageBase64))
    (hok : respOk st = true)
    (hu : env.updateError = none) :
    generateImage "POST" body env s =
      { resp := { status := 200, body := .ok imageBase64 },
        store := storeUpdate gid
          (fun g => { g with image_url := some imageBase64, status := "completed" }) s,
        modelCalls := 1, storeWrites := 1,
        sentPrompt := some (enhancedPrompt env.protoRender (body.prompt.getD "")
          (body.style.getD "")) } := by
  have hbe : (gid == "") = false := beq_eq_false_iff_ne.mpr hne
  have hg : falsy body.generationId = false := by rw [hgid]; exact hbe
  have hg2 : falsy (some gid) = false := hbe
  unfold generateImage
  simp [hg, hg2, hp, hsy, hk, hf, hok, hu, hgid]

theorem orchestrator_success_witness :
    generateImage "POST"
        { generationId := some "gen-1", prompt := some "a red bicycle",
          style := some "anime", uploadedImage := none }
        { apiKey := some "key", fetchResult := .http 200 (some "data:image/png;base64,AAA"),
          updateError := none, protoRender := fun _ => "[object Object]" }
        [{ id := "gen-1", user_id := "user-1", prompt := "a red bicycle",
           style := "anime", image_url := none, status := "pending" }] =
      { resp := { status := 200, body := .ok "data:image/png;base64,AAA" },
        store := storeUpdate "gen-1"
          (fun g => { g with image_url := some "data:image/png;base64,AAA",
                             status := "completed" })
          [{ id := "gen-1", user_id := "user-1", prompt := "a red bicycle",
             style := "anime", image_url := none, status := "pending" }],
        modelCalls := 1, storeWrites := 1,
        sentPrompt := some (enhancedPrompt (fun _ => "[object Object]")
          "a red bicycle" "anime") } :=
  orchestrator_success_updates_record _ _ _ "gen-1" "data:image/png;base64,AAA" 200
    rfl (by decide) rfl rfl rfl rfl rfl rfl

/-- C4: when the external model call fails (network error or non-2xx
status) or the nominally successful response lacks an image, the
Orchestrator makes exactly one model call (no retry), writes nothing to
the Request Store, and responds `{error: string}` with HTTP status 429
when the upstream status is 429, 402 when it is 402, and 500 for every
other failure (including a missing image). -/
theorem orchestrator_failure_responses (body : ReqBody) (env : OrchEnv) (s : Store)
    (hg : falsy body.generationId = false) (hp : falsy body.prompt = false)
    (hsy : falsy body.style = false) (hk : falsy env.apiKey = false)
    (hfail : upstreamFail env.fetchResult = true) :
    (∃ m, (generateImage "POST" body env s).resp.body = .err m) ∧
    (generateImage "POST" body env s).resp.status = expectedFailStatus env.fetchResult ∧
    (generateImage "POST" body env s).modelCalls = 1 ∧
    (generateImage "POST" body env s).storeWrites = 0 ∧
    (generateImage "POST" body env s).store = s := by
  unfold generateImage
  cases hf : env.fetchResult with
  | netError msg => simp [hg, hp, hsy, hk, expectedFailStatus]
  | http status image =>
    rw [hf] at hfail
    unfold upstreamFail at hfail
    by_cases hok : respOk status = true
    · have himg : image = none := by
        cases image with
        | none => rfl
        | some img => simp [hok] at hfail
      subst himg
      have hlt : status < 300 := by
        simp only [respOk, Bool.and_eq_true, decide_eq_true_eq] at hok
        exact hok.2
      have h429 : status ≠ 429 := by omega
      have h402 : status ≠ 402 := by omega
      simp [hg, hp, hsy, hk, hok, expectedFailStatus, h429, h402]
    · have hok' : respOk status = false := by
        cases hsr : respOk status
        · rfl
        · exact absurd hsr hok
      by_cases h429 : status = 429
      · subst h429
        simp [hg, hp, hsy, hk, hok', expectedFailStatus]
      · by_cases h402 : status = 402
        · subst h402
          simp [hg, hp, hsy, hk, hok', expectedFailStatus]
        · simp [hg, hp, hsy, hk, hok', expectedFailStatus, h429, h402]

theorem orchestrator_failure_witness :
    (∃ m, (generateImage "POST"
        { generationId := some "gen-1", prompt := some "a red bicycle",
          style := some "anime", uploadedImage := none }
        { apiKey := some "key", fetchResult := .http 429 none, updateError := none, protoRender := fun _ => "[object Object]" }
        []).resp.body = .err m) ∧
    (generateImage "POST"
        { generationId := some "gen-1", prompt := some "a red bicycle",
          style := some "anime", uploadedImage := none }
        { apiKey := some "key", fetchResult := .http 429 none, updateError := none, protoRender := fun _ => "[object Object]" }
        []).resp.status = expectedFailStatus (.http 429 none) ∧
    (generateImage "POST"
        { generationId := some "gen-1", prompt := some "a red bicycle",
          style := some "anime", uploadedImage := none }
        { apiKey := some "key", fetchResult := .http 429 none, updateError := none, protoRender := fun _ => "[object Object]" }
        []).modelCalls = 1 ∧
    (generateImage "POST"
        { generationId := some "gen-1", prompt := some "a red bicycle",
          style := some "anime", uploadedImage := none }
        { apiKey := some "key", fetchResult := .http 429 none, updateError := none, protoRender := fun _ => "[object Object]" }
        []).storeWrites = 0 ∧
    (generateImage "POST"
        { generationId := some "gen-1", prompt := some "a red bicycle",
          style := some "anime", uploadedImage := none }
        { apiKey := some "key", fetchResult := .http 429 none, updateError := none, protoRender := fun _ => "[object Object]" }
        []).store = [] :=
  orchestrator_failure_responses _ _ _ rfl rfl rfl rfl rfl

/-- C6: a submission whose prompt trims to the empty string returns
before any backend call: the current user is not fetched, no record is
inserted, and the Orchestrator is not invoked. -/
theorem empty_prompt_no_side_effects (promptText style : String) (upl : Option String)
    (env : ClientEnv) (s0 : Store) (h : jsTrim promptText = "") :
    handleGenerate promptText style upl env s0 =
      { trace := [s0], toasts := ["Please enter a prompt"],
        userFetches := 0, invokes := 0, promptCleared := false, refreshSignaled := false } := by
  unfold handleGenerate
  simp [h]

theorem empty_prompt_witness :
    handleGenerate "   " "anime" none
        { user := some "user-1", insertError := none, newId := "gen-1",
          orchEnv := { apiKey := some "key",
                       fetchResult := .http 200 (some "data:image/png;base64,AAA"),
                       updateError := none, protoRender := fun _ => "[object Object]" },
          transport := .delivered, invokeErrMsg := "" }
        [] =
      { trace := [[]], toasts := ["Please enter a prompt"],
        userFetches := 0, invokes := 0, promptCleared := false, refreshSignaled := false } :=
  empty_prompt_no_side_effects "   " "anime" none
    { user := some "user-1", insertError := none, newId := "gen-1",
      orchEnv := { apiKey := some "key",
                   fetchResult := .http 200 (some "data:image/png;base64,AAA"),
                   updateError := none, protoRender := fun _ => "[object Object]" },
      transport := .delivered, invokeErrMsg := "" }
    [] (by decide)

/-- The first violated validation rule of the auth form, following the
claimed order: email well-formed, email length, password minimum,
password maximum, then (sign-up only) display-name minimum and
maximum. -/
def firstViolation (fmt : String → Bool) (isLogin : Bool)
    (email password fullName : String) : Option String :=
  if fmt email = false then some "Invalid email address"
  else if 255 < jsLength email then some "String must contain at most 255 character(s)"
  else if jsLength password < 6 then some "Password must be at least 6 characters"
  else if 100 < jsLength password then some "String must contain at most 100 character(s)"
  else if isLogin = false ∧ jsLength fullName < 2 then some "Name must be at least 2 characters"
  else if isLogin = false ∧ 100 < jsLength fullName then some "String must contain at most 100 character(s)"
  else none

/-- C9: when an auth form submission violates one of the fixed
validation rules, the message of the first violated rule (in the claimed
checking order) is surfaced as the only toast and neither sign-in nor
sign-up API call is made.  The well-formedness test of zod's `email()`
check lives in the zod library, so it is a parameter `fmt`. -/
theorem auth_validation_gates_api (fmt : String → Bool) (isLogin : Bool)
    (email password fullName : String) (env : AuthEnv) (m : String)
    (h : firstViolation fmt isLogin email password fullName = some m) :
    handleSubmit isLogin email password fullName fmt env =
      { toasts := [m], signInCalls := 0, signUpCalls := 0 } := by
  unfold firstViolation at h
  unfold handleSubmit emailIssues passwordIssues nameIssues
  split_ifs at h with hf h255 h6 h100 hn2 hn100
  · rw [Option.some.injEq] at h
    subst h
    simp [hf]
  · rw [Option.some.injEq] at h
    subst h
    have : fmt email = true := by
      cases hfe : fmt email
      · exact absurd hfe hf
      · rfl
    simp [this, h255]
  · rw [Option.some.injEq] at h
    subst h
    have : fmt email = true := by
      cases hfe : fmt email
      · exact absurd hfe hf
      · rfl
    simp [this, h255, h6]
  · rw [Option.some.injEq] at h
    subst h
    have : fmt email = true := by
      cases hfe : fmt email
      · exact absurd hfe hf
      · rfl
    simp [this, h255, h6, h100]
  · rw [Option.some.injEq] at h
    subst h
    have hfe : fmt email = true := by
      cases hfe : fmt email
      · exact absurd hfe hf
      · rfl
    obtain ⟨hl, hlen⟩ := hn2
    subst hl
    simp [hfe, h255, h6, h100, hlen]
  · rw [Option.some.injEq] at h
    subst h
    have hfe : fmt email = true := by
      cases hfe : fmt email
      · exact absurd hfe hf
      · rfl
    obtain ⟨hl, hlen⟩ := hn100
    subst hl
    have hge : ¬ jsLength fullName < 2 := by
      intro hc
      exact hn2 ⟨rfl, hc⟩
    simp [hfe, h255, h6, h100, hge, hlen]

theorem auth_validation_witness :
    handleSubmit true "not-an-email" "secret1" "" (fun _ => false)
        { signInError := none, signUpError := none } =
      { toasts := ["Invalid email address"], signInCalls := 0, signUpCalls := 0 } :=
  auth_validation_gates_api (fun _ => false) true "not-an-email" "secret1" ""
    { signInError := none, signUpError := none } "Invalid email address" (by decide)

/-- C5: when the Orchestrator invocation made by a client submission
returns an error status, the client transitions the just-created record
(same id) to `failed` (image payload still null), and when the
invocation error message contains "429" the user is shown the
rate-limit-specific message. -/
theorem client_marks_failed_on_error (promptText style : String) (upl : Option String)
    (env : ClientEnv) (s0 : Store) (uid : String)
    (hp : jsTrim promptText ≠ "")
    (hu : env.user = some uid)
    (hins : env.insertError = none)
    (hfresh : findRec env.newId s0 = none)
    (herr : (clientOrchCall promptText style upl env s0).resp.status ≠ 200) :
    (∃ g, findRec env.newId (finalStore (handleGenerate promptText style upl env s0)) = some g ∧
        g.status = "failed" ∧ g.image_url = none) ∧
      (strIncludes env.invokeErrMsg "429" = true →
        (handleGenerate promptText style upl env s0).toasts =
          ["Rate limit exceeded. Please try again in a moment."]) := by
  have hpb : (jsTrim promptText == "") = false := beq_eq_false_iff_ne.mpr hp
  have hsb : ((clientOrchCall promptText style upl env s0).resp.status == 200) = false :=
    beq_eq_false_iff_ne.mpr herr
  have hcase :
      (clientOrchCall promptText style upl env s0).store =
          s0 ++ [insertedRow (env.user.getD "") promptText style env] ∨
        ∃ img,
          (clientOrchCall promptText style upl env s0).resp.status = 200 ∧
          (clientOrchCall promptText style upl env s0).resp.body = RespBody.ok img ∧
          (clientOrchCall promptText style upl env s0).store =
            storeUpdate env.newId
              (fun g => { g with image_url := some img, status := "completed" })
              (s0 ++ [insertedRow (env.user.getD "") promptText style env]) :=
    generateImage_store_cases "POST"
      { generationId := some env.newId, prompt := some (jsTrim promptText),
        style := some style, uploadedImage := if falsy upl then none else upl }
      env.orchEnv (s0 ++ [insertedRow (env.user.getD "") promptText style env])
  have hupd : storeUpdate env.newId (fun g => { g with status := "failed" })
      (s0 ++ [insertedRow uid promptText style env]) =
      s0 ++ [{ insertedRow uid promptText style env with status := "failed" }] :=
    storeUpdate_fresh_append _ _ _ _ hfresh (by simp [insertedRow])
  have hfind : findRec env.newId
      (s0 ++ [{ insertedRow uid promptText style env with status := "failed" }]) =
      some { insertedRow uid promptText style env with status := "failed" } :=
    findRec_fresh_append_self _ _ _ hfresh (by simp [insertedRow])
  cases htr : env.transport with
  | lostBeforeRun =>
    constructor
    · refine ⟨{ insertedRow uid promptText style env with status := "failed" }, ?_, rfl, rfl⟩
      simp [handleGenerate, finalStore, lastStore, hpb, hu, hins, htr, hupd, hfind]
    · intro h429
      simp [handleGenerate, hpb, hu, hins, htr, h429]
  | delivered =>
    rcases hcase with hst | ⟨img, h200, _, _⟩
    · have hst' : (clientOrchCall promptText style upl env s0).store =
          s0 ++ [insertedRow uid promptText style env] := by
        rw [hst, hu]
        rfl
      constructor
      · refine ⟨{ insertedRow uid promptText style env with status := "failed" }, ?_, rfl, rfl⟩
        simp [handleGenerate, finalStore, lastStore, hpb, hu, hins, htr, hsb, hst', hupd,
          hfind]
      · intro h429
        simp [handleGenerate, hpb, hu, hins, htr, hsb, h429]
    · exact absurd h200 herr
  | lostAfterRun =>
    rcases hcase with hst | ⟨img, h200, _, _⟩
    · have hst' : (clientOrchCall promptText style upl env s0).store =
          s0 ++ [insertedRow uid promptText style env] := by
        rw [hst, hu]
        rfl
      constructor
      · refine ⟨{ insertedRow uid promptText style env with status := "failed" }, ?_, rfl, rfl⟩
        simp [handleGenerate, finalStore, lastStore, hpb, hu, hins, htr, hst', hupd, hfind]
      · intro h429
        simp [handleGenerate, hpb, hu, hins, htr, h429]
    · exact absurd h200 herr

theorem client_marks_failed_witness :
    (∃ g, findRec "gen-1"
        (finalStore (handleGenerate "a red bicycle" "anime" none
          { user := some "user-1", insertError := none, newId := "gen-1",
            orchEnv := { apiKey := some "key", fetchResult := .http 429 none,
                         updateError := none, protoRender := fun _ => "[object Object]" },
            transport := .delivered, invokeErrMsg := "Edge function returned status 429" }
          [])) = some g ∧
       g.status = "failed" ∧ g.image_url = none) ∧
      (strIncludes "Edge function returned status 429" "429" = true →
        (handleGenerate "a red bicycle" "anime" none
          { user := some "user-1", insertError := none, newId := "gen-1",
            orchEnv := { apiKey := some "key", fetchResult := .http 429 none,
                         updateError := none, protoRender := fun _ => "[object Object]" },
            transport := .delivered, invokeErrMsg := "Edge function returned status 429" }
          []).toasts = ["Rate limit exceeded. Please try again in a moment."]) :=
  client_marks_failed_on_error "a red bicycle" "anime" none
    { user := some "user-1", insertError := none, newId := "gen-1",
      orchEnv := { apiKey := some "key", fetchResult := .http 429 none,
                   updateError := none, protoRender := fun _ => "[object Object]" },
      transport := .delivered, invokeErrMsg := "Edge function returned status 429" }
    [] "user-1" (by decide) rfl rfl rfl (by decide)

/-- C2 counterexample: when the invocation response is lost in
transport after the edge function has already written `completed`, the
client sees an error and overwrites the completed record with `failed`
while the image payload stays set: the record's history is
pending, then completed, then failed — two transitions and an exit from
a terminal state, violating the claimed lifecycle invariant. -/
theorem lifecycle_lost_response_counterexample :
    chainOk ((handleGenerate "a red bicycle" "anime" none
        { user := some "user-1", insertError := none, newId := "gen-1",
          orchEnv := { apiKey := some "key",
                       fetchResult := .http 200 (some "data:image/png;base64,AAA"),
                       updateError := none, protoRender := fun _ => "[object Object]" },
          transport := .lostAfterRun,
          invokeErrMsg := "Failed to send a request to the Edge Function" }
        []).trace.map (findRec "gen-1")) = false := by
  decide

/-- C2 (amended): over a full client submission — client insert,
Orchestrator completion update, client failure update — every record's
observed history satisfies the lifecycle invariant (created with status
`pending` and null image, at most one transition to `completed` (image
payload set) or `failed` (image payload still null), never a transition
out of a terminal state or back to `pending`), except in the one case
where the invocation's response is lost in transport after the
Orchestrator has already written `completed`: there the client
overwrites the completed record with `failed`, its image payload still
set. -/
theorem generation_lifecycle (promptText style : String) (upl : Option String)
    (env : ClientEnv) (s0 : Store)
    (hfresh : findRec env.newId s0 = none)
    (hgood : env.transport ≠ InvokeTransport.lostAfterRun ∨
      (clientOrchCall promptText style upl env s0).resp.status ≠ 200)
    (id : String) :
    chainOk ((handleGenerate promptText style upl env s0).trace.map (findRec id)) = true := by
  cases hpb : (jsTrim promptText == "") with
  | true => simp [handleGenerate, hpb, chainOk]
  | false =>
  cases hu : env.user with
  | none => simp [handleGenerate, hpb, hu, chainOk]
  | some uid =>
  cases hins : env.insertError with
  | some e => simp [handleGenerate, hpb, hu, hins, chainOk]
  | none =>
  have hcase :
      (clientOrchCall promptText style upl env s0).store =
          s0 ++ [insertedRow (env.user.getD "") promptText style env] ∨
        ∃ img,
          (clientOrchCall promptText style upl env s0).resp.status = 200 ∧
          (clientOrchCall promptText style upl env s0).resp.body = RespBody.ok img ∧
          (clientOrchCall promptText style upl env s0).store =
            storeUpdate env.newId
              (fun g => { g with image_url := some img, status := "completed" })
              (s0 ++ [insertedRow (env.user.getD "") promptText style env]) :=
    generateImage_store_cases "POST"
      { generationId := some env.newId, prompt := some (jsTrim promptText),
        style := some style, uploadedImage := if falsy upl then none else upl }
      env.orchEnv (s0 ++ [insertedRow (env.user.getD "") promptText style env])
  rw [hu] at hcase
  have hrow1 : findRec env.newId
      (s0 ++ [({ id := env.newId, user_id := uid, prompt := jsTrim promptText,
                 style := style, image_url := none, status := "pending" } : Generation)]) =
      some { id := env.newId, user_id := uid, prompt := jsTrim promptText,
             style := style, image_url := none, status := "pending" } :=
    findRec_fresh_append_self _ _ _ hfresh (by simp)
  have hupd : storeUpdate env.newId (fun g => { g with status := "failed" })
      (s0 ++ [({ id := env.newId, user_id := uid, prompt := jsTrim promptText,
                 style := style, image_url := none, status := "pending" } : Generation)]) =
      s0 ++ [({ id := env.newId, user_id := uid, prompt := jsTrim promptText,
                style := style, image_url := none, status := "failed" } : Generation)] := by
    rw [storeUpdate_fresh_append _ _ _ _ hfresh (by simp)]
  have hfind3 : findRec env.newId
      (s0 ++ [({ id := env.newId, user_id := uid, prompt := jsTrim promptText,
                 style := style, image_url := none, status := "failed" } : Generation)]) =
      some { id := env.newId, user_id := uid, prompt := jsTrim promptText,
             style := style, image_url := none, status := "failed" } :=
    findRec_fresh_append_self _ _ _ hfresh (by simp)
  by_cases hid : env.newId = id
  · subst hid
    cases htr : env.transport with
    | lostBeforeRun =>
      simp [handleGenerate, hpb, hu, hins, htr, hupd, hfind3, hfresh, hrow1, insertedRow,
        chainOk, stepOkB]
    | delivered =>
      cases hsr : ((clientOrchCall promptText style upl env s0).resp.status == 200) with
      | true =>
        rcases hcase with hst | ⟨img, h200, hb, hst⟩
        · have hst1 : (clientOrchCall promptText style upl env s0).store =
              s0 ++ [({ id := env.newId, user_id := uid, prompt := jsTrim promptText,
                        style := style, image_url := none, status := "pending" } : Generation)] := by
            rw [hst]
            rfl
          simp [handleGenerate, hpb, hu, hins, htr, hsr, hst1, hfresh, hrow1, insertedRow,
            chainOk, stepOkB]
        · have hst2 : (clientOrchCall promptText style upl env s0).store =
              s0 ++ [({ id := env.newId, user_id := uid, prompt := jsTrim promptText,
                        style := style, image_url := some img,
                        status := "completed" } : Generation)] := by
            rw [hst, storeUpdate_fresh_append _ _ _ _ hfresh (by simp [insertedRow])]
            rfl
          have hfind2 : findRec env.newId
              (s0 ++ [({ id := env.newId, user_id := uid, prompt := jsTrim promptText,
                         style := style, image_url := some img,
                         status := "completed" } : Generation)]) =
              some { id := env.newId, user_id := uid, prompt := jsTrim promptText,
                     style := style, image_url := some img, status := "completed" } :=
            findRec_fresh_append_self _ _ _ hfresh (by simp)
          simp [handleGenerate, hpb, hu, hins, htr, hsr, hst2, hfresh, hrow1, hfind2,
            insertedRow, chainOk, stepOkB]
      | false =>
        rcases hcase with hst | ⟨img, h200, hb, hst⟩
        · have hst1 : (clientOrchCall promptText style upl env s0).store =
              s0 ++ [({ id := env.newId, user_id := uid, prompt := jsTrim promptText,
                        style := style, image_url := none, status := "pending" } : Generation)] := by
            rw [hst]
            rfl
          simp [handleGenerate, hpb, hu, hins, htr, hsr, hst1, hupd, hfind3, hfresh, hrow1,
            insertedRow, chainOk, stepOkB]
        · rw [h200] at hsr
          simp at hsr
    | lostAfterRun =>
      have hne200 : (clientOrchCall promptText style upl env s0).resp.status ≠ 200 := by
        rcases hgood with hg | hg
        · exact absurd htr hg
        · exact hg
      rcases hcase with hst | ⟨img, h200, hb, hst⟩
      · have hst1 : (clientOrchCall promptText style upl env s0).store =
            s0 ++ [({ id := env.newId, user_id := uid, prompt := jsTrim promptText,
                      style := style, image_url := none, status := "pending" } : Generation)] := by
          rw [hst]
          rfl
        simp [handleGenerate, hpb, hu, hins, htr, hst1, hupd, hfind3, hfresh, hrow1,
          insertedRow, chainOk, stepOkB]
      · exact absurd h200 hne200
  · have hbe2 : (env.newId == id) = false := beq_eq_false_iff_ne.mpr hid
    have ho1 : findRec id
        (s0 ++ [({ id := env.newId, user_id := uid, prompt := jsTrim promptText,
                   style := style, image_url := none, status := "pending" } : Generation)]) =
        findRec id s0 :=
      findRec_append_other _ _ _ (by simp [hbe2])
    have ho3 : findRec id
        (s0 ++ [({ id := env.newId, user_id := uid, prompt := jsTrim promptText,
                   style := style, image_url := none, status := "failed" } : Generation)]) =
        findRec id s0 :=
      findRec_append_other _ _ _ (by simp [hbe2])
    cases htr : env.transport with
    | lostBeforeRun =>
      simp [handleGenerate, hpb, hu, hins, htr, hupd, ho1, ho3, insertedRow, chainOk,
        stepOkB_refl]
    | delivered =>
      cases hsr : ((clientOrchCall promptText style upl env s0).resp.status == 200) with
      | true =>
        rcases hcase with hst | ⟨img, h200, hb, hst⟩
        · have hst1 : (clientOrchCall promptText style upl env s0).store =
              s0 ++ [({ id := env.newId, user_id := uid, prompt := jsTrim promptText,
                        style := style, image_url := none, status := "pending" } : Generation)] := by
            rw [hst]
            rfl
          simp [handleGenerate, hpb, hu, hins, htr, hsr, hst1, ho1, insertedRow, chainOk,
            stepOkB_refl]
        · have hst2 : (clientOrchCall promptText style upl env s0).store =
              s0 ++ [({ id := env.newId, user_id := uid, prompt := jsTrim promptText,
                        style := style, image_url := some img,
                        status := "completed" } : Generation)] := by
            rw [hst, storeUpdate_fresh_append _ _ _ _ hfresh (by simp [insertedRow])]
            rfl
          have ho2 : findRec id
              (s0 ++ [({ id := env.newId, user_id := uid, prompt := jsTrim promptText,
                         style := style, image_url := some img,
                         status := "completed" } : Generation)]) =
              findRec id s0 :=
            findRec_append_other _ _ _ (by simp [hbe2])
          simp [handleGenerate, hpb, hu, hins, htr, hsr, hst2, ho1, ho2, insertedRow,
            chainOk, stepOkB_refl]
      | false =>
        rcases hcase with hst | ⟨img, h200, hb, hst⟩
        · have hst1 : (clientOrchCall promptText style upl env s0).store =
              s0 ++ [({ id := env.newId, user_id := uid, prompt := jsTrim promptText,
                        style := style, image_url := none, status := "pending" } : Generation)] := by
            rw [hst]
            rfl
          simp [handleGenerate, hpb, hu, hins, htr, hsr, hst1, hupd, ho1, ho3, insertedRow,
            chainOk, stepOkB_refl]
        · rw [h200] at hsr
          simp at hsr
    | lostAfterRun =>
      have hne200 : (clientOrchCall promptText style upl env s0).resp.status ≠ 200 := by
        rcases hgood with hg | hg
        · exact absurd htr hg
        · exact hg
      rcases hcase with hst | ⟨img, h200, hb, hst⟩
      · have hst1 : (clientOrchCall promptText style upl env s0).store =
            s0 ++ [({ id := env.newId, user_id := uid, prompt := jsTrim promptText,
                      style := style, image_url := none, status := "pending" } : Generation)] := by
          rw [hst]
          rfl
        simp [handleGenerate, hpb, hu, hins, htr, hst1, hupd, ho1, ho3, insertedRow,
          chainOk, stepOkB_refl]
      · exact absurd h200 hne200

theorem generation_lifecycle_witness :
    chainOk ((handleGenerate "a red bicycle" "anime" none
        { user := some "user-1", insertError := none, newId := "gen-1",
          orchEnv := { apiKey := some "key",
                       fetchResult := .http 200 (some "data:image/png;base64,AAA"),
                       updateError := none, protoRender := fun _ => "[object Object]" },
          transport := .delivered, invokeErrMsg := "" }
        []).trace.map (findRec "gen-1")) = true :=
  generation_lifecycle "a red bicycle" "anime" none
    { user := some "user-1", insertError := none, newId := "gen-1",
      orchEnv := { apiKey := some "key",
                   fetchResult := .http 200 (some "data:image/png;base64,AAA"),
                   updateError := none, protoRender := fun _ => "[object Object]" },
      transport := .delivered, invokeErrMsg := "" }
    [] rfl (Or.inl (by decide)) "gen-1"

end ImageGen
